import Mathlib

/-!
Verification of the frequency-capping and exclusion-cache engine of the
campaign VAST generator (src/cache_manager.py), against its natural-language
specification.

The keyed store backend (RedisGateway) is not part of the sources; its
operations are modelled from the spec, section 4.2 (Keyed Store Abstraction).
The cache-manager layer is translated directly from src/cache_manager.py.
Wall-clock time is passed explicitly as a `now : Nat` parameter; within one
call the source reads the clock at most a few instants apart, which we model
as a single instant.
-/

set_option autoImplicit false

namespace CampaignCache

/-- Modelled from the spec: the sentinel score lattice of section 4.2 —
a score is either a finite epoch-seconds timestamp or the sentinel
meaning never expires (`"inf"` in the source), treated as +∞ in
range comparisons. -/
inductive Score where
  | fin : Nat → Score
  | inf : Score
deriving DecidableEq, Repr

/-- Score comparison: `inf` is above every finite timestamp. -/
def Score.le : Score → Score → Bool
  | _, .inf => true
  | .inf, .fin _ => false
  | .fin a, .fin b => a ≤ b

/-- Modelled from the spec: a scalar key-value store with per-key absolute
expiry (`none` = permanent, per "no ttl means permanent"). Entries map a
string key to a value and an optional absolute expiry timestamp. -/
abbrev ScalarStore := List (String × Int × Option Nat)

/-- First-match lookup of the raw entry for a key, expiry included. -/
def slookup : ScalarStore → String → Option (Int × Option Nat)
  | [], _ => none
  | (k, v) :: rest, key => if k = key then some v else slookup rest key

/-- A key with absolute expiry `e` is live at `now` iff it is permanent or
its expiry is still in the future. -/
def liveAt (now : Nat) : Option Nat → Bool
  | none => true
  | some t => now < t

/-- Replace the entry for a key, or append it if absent. -/
def supdate : ScalarStore → String → Int × Option Nat → ScalarStore
  | [], key, v => [(key, v)]
  | (k, w) :: rest, key, v =>
      if k = key then (key, v) :: rest else (k, w) :: supdate rest key v

/-- Modelled from the spec: `get(key, cast)` — the value if the key is
present and unexpired, otherwise absent. -/
def sget (st : ScalarStore) (key : String) (now : Nat) : Option Int :=
  match slookup st key with
  | some (v, e) => if liveAt now e then some v else none
  | none => none

/-- Modelled from the spec: `set(key, value, ttl)` — overwrite with optional
expiry; no ttl means permanent. -/
def sset (st : ScalarStore) (key : String) (v : Int) (ttl : Option Nat)
    (now : Nat) : ScalarStore :=
  supdate st key (v, ttl.map (now + ·))

/-- Modelled from the spec: `increment(key, by, ttl)` — atomically adds to
the current value (absent treated as 0), applies `ttl` only if the key did
not previously exist (an expired key counts as absent), and returns the new
value together with the updated store. -/
def sincr (st : ScalarStore) (key : String) (amount : Int) (ttl : Option Nat)
    (now : Nat) : Int × ScalarStore :=
  match slookup st key with
  | some (v, e) =>
      if liveAt now e then (v + amount, supdate st key (v + amount, e))
      else (amount, supdate st key (amount, ttl.map (now + ·)))
  | none => (amount, supdate st key (amount, ttl.map (now + ·)))

/-- Modelled from the spec: `timeToLive(key)` — remaining seconds until
expiry, or `none` for the distinguished no-finite-expiry answer (key
permanent, expired or absent). -/
def skeyTtl (st : ScalarStore) (key : String) (now : Nat) : Option Nat :=
  match slookup st key with
  | some (_, some t) => if now < t then some (t - now) else none
  | some (_, none) => none
  | none => none

/-- A sorted set: members (campaign ids) with their scores. -/
abbrev ZSet := List (Int × Score)

/-- Modelled from the spec: the sorted-set store — named sorted sets of
integer members scored by expiry timestamp. -/
abbrev ZStore := List (String × ZSet)

/-- The contents of a named sorted set (empty when absent). -/
def zlookup : ZStore → String → ZSet
  | [], _ => []
  | (k, zs) :: rest, name => if k = name then zs else zlookup rest name

/-- Replace the contents of a named sorted set. -/
def zstoreUpdate : ZStore → String → ZSet → ZStore
  | [], name, zs => [(name, zs)]
  | (k, w) :: rest, name, zs =>
      if k = name then (name, zs) :: rest else (k, w) :: zstoreUpdate rest name zs

/-- Insert a member or update its score inside one sorted set. -/
def zsetUpdate : ZSet → Int → Score → ZSet
  | [], m, sc => [(m, sc)]
  | (k, w) :: rest, m, sc =>
      if k = m then (m, sc) :: rest else (k, w) :: zsetUpdate rest m sc

/-- Modelled from the spec: `sortedSetAdd(setName, member, score)` — insert
or update a member score. -/
def zadd (st : ZStore) (name : String) (member : Int) (score : Score) :
    ZStore :=
  zstoreUpdate st name (zsetUpdate (zlookup st name) member score)

/-- A member-score pair lies in the closed score range `[lo, hi]`. -/
def inScoreRange (lo hi : Score) (p : Int × Score) : Bool :=
  lo.le p.2 && p.2.le hi

/-- Modelled from the spec: `sortedSetRangeQuery(setName, minScore, maxScore,
cast, evictOutOfRange)` — returns all members with score in the closed range
and, when eviction is requested, deletes every member whose score falls
outside the range as a side effect of the read. -/
def zget (st : ZStore) (name : String) (lo hi : Score) (rmOutRange : Bool) :
    List Int × ZStore :=
  let kept := (zlookup st name).filter (inScoreRange lo hi)
  (kept.map Prod.fst, if rmOutRange then zstoreUpdate st name kept else st)

/-- Score of a member of a sorted set, when present. -/
def zscore : ZSet → Int → Option Score
  | [], _ => none
  | (k, sc) :: rest, m => if k = m then some sc else zscore rest m

/-- The three independent namespaces of the engine: counters, exclusion
lists and no-ads flags, each backed by its own gateway prefix in the
source. -/
structure CacheState where
  counters : ScalarStore
  excludeLists : ZStore
  noAds : ScalarStore
deriving DecidableEq, Repr

/-- The empty cache. -/
def CacheState.empty : CacheState := ⟨[], [], []⟩

-- ------------------------------ cache keys -------------------------------

def campaignTotalShowCountKey (cid : Int) : String :=
  "campaign_" ++ toString cid ++ "_total_show_count"

def campaignTotalShowCountTimestampKey (cid : Int) : String :=
  "campaign_" ++ toString cid ++ "_total_show_count_timestamp"

def userCampaignShowCountKey (uid : String) (cid : Int) : String :=
  "user_" ++ uid ++ "_campaign_" ++ toString cid ++ "_show_count"

def userLevel1ShowCountKey (uid : String) (l1 : Int) : String :=
  "user_" ++ uid ++ "_level_1_" ++ toString l1 ++ "_show_count"

def userLevel2WatchTimeKey (uid : String) (l2 : Int) : String :=
  "user_" ++ uid ++ "_level_2_" ++ toString l2 ++ "_watch_time"

def excludeCampaignsKey : String := "excluded_campaigns"

def userExcludedCampaignsKey (uid : String) : String :=
  "user_" ++ uid ++ "_excluded_campaigns"

def userLevel1NoAdsKey (uid : String) (l1 : Int) : String :=
  "user_" ++ uid ++ "_level_1_" ++ toString l1 ++ "_no_ads"

def userLevel2NoAdsKey (uid : String) (l2 : Int) : String :=
  "user_" ++ uid ++ "_level_2_" ++ toString l2 ++ "_no_ads"

-- --------------------------- score calculators ---------------------------

/-- `_get_days_seconds`: `days * 3600 * 24` when a window is given, the
absent answer otherwise. -/
def getDaysSeconds (days : Option Nat) : Option Nat :=
  days.map (fun d => d * 3600 * 24)

/-- `_get_hours_seconds`: `hours * 3600` when a window is given, the absent
answer otherwise. -/
def getHoursSeconds (hours : Option Nat) : Option Nat :=
  hours.map (fun h => h * 3600)

/-- The duration-like value (a Python `timedelta`) the level-2 threshold is
supplied as: normalized days plus a seconds remainder. Its `seconds` field
ignores the days part, exactly as `timedelta.seconds` does. -/
structure Duration where
  days : Nat
  seconds : Nat
deriving DecidableEq, Repr

/-- Total length of a duration in seconds. -/
def Duration.totalSeconds (d : Duration) : Nat :=
  d.days * 86400 + d.seconds

-- -------------------------- internal operations --------------------------

/-- `_get_exclude_campaigns_list`: range-query the global exclusion set for
scores in `[now, inf]` with out-of-range eviction. -/
def getExcludeCampaignsListImpl (s : CacheState) (now : Nat) :
    List Int × CacheState :=
  let (lst, z) := zget s.excludeLists excludeCampaignsKey (.fin now) .inf true
  (lst, { s with excludeLists := z })

/-- `_get_user_exclude_campaigns_list`: the same range-query against the
per-user exclusion set. -/
def getUserExcludeCampaignsListImpl (s : CacheState) (now : Nat)
    (uid : String) : List Int × CacheState :=
  let (lst, z) :=
    zget s.excludeLists (userExcludedCampaignsKey uid) (.fin now) .inf true
  (lst, { s with excludeLists := z })

/-- `_set_exclude_campaigns`: add or rescore a campaign in the global
exclusion set. -/
def setExcludeCampaigns (s : CacheState) (cid : Int) (timeout : Score) :
    CacheState :=
  { s with excludeLists := zadd s.excludeLists excludeCampaignsKey cid timeout }

/-- `_set_user_exclude_campaigns`: add or rescore a campaign in one user
exclusion set. -/
def setUserExcludeCampaigns (s : CacheState) (uid : String) (cid : Int)
    (timeout : Score) : CacheState :=
  { s with excludeLists :=
      (zadd s.excludeLists (userExcludedCampaignsKey uid) cid timeout) }

/-- `_get_user_level_1_no_ads`. -/
def getUserLevel1NoAdsImpl (s : CacheState) (now : Nat) (uid : String)
    (l1 : Int) : Option Int :=
  sget s.noAds (userLevel1NoAdsKey uid l1) now

/-- `_get_user_level_2_no_ads`. -/
def getUserLevel2NoAdsImpl (s : CacheState) (now : Nat) (uid : String)
    (l2 : Int) : Option Int :=
  sget s.noAds (userLevel2NoAdsKey uid l2) now

/-- `_set_user_level_1_no_ads`: set the level-1 flag to 1 with TTL
`hours * 3600`. -/
def setUserLevel1NoAds (s : CacheState) (now : Nat) (uid : String) (l1 : Int)
    (timeout : Option Nat) : CacheState :=
  { s with noAds :=
      (sset s.noAds (userLevel1NoAdsKey uid l1) 1 (getHoursSeconds timeout) now) }

/-- `_set_user_level_2_no_ads`: set the level-2 flag to 1 with TTL
`hours * 3600`. -/
def setUserLevel2NoAds (s : CacheState) (now : Nat) (uid : String) (l2 : Int)
    (timeout : Option Nat) : CacheState :=
  { s with noAds :=
      (sset s.noAds (userLevel2NoAdsKey uid l2) 1 (getHoursSeconds timeout) now) }

/-- The first step of `_set_campaign_total_show_counter`: when the current
count is absent, persist the insertion timestamp (value `now`, no TTL). -/
def globalCounters0 (s : CacheState) (now : Nat) (cid : Int) : ScalarStore :=
  if sget s.counters (campaignTotalShowCountKey cid) now = none then
    sset s.counters (campaignTotalShowCountTimestampKey cid) (now : Int) none now
  else s.counters

/-- `_set_campaign_total_show_counter`: on an absent current count first
persist the insertion timestamp, then atomically increment with TTL
`days * 86400`; when the new count reaches the cap, exclude the campaign
globally until `now` plus the remaining TTL of the counter key. The result
is `none` when that remaining TTL is the no-finite-expiry sentinel, on which
the source arithmetic raises. -/
def setCampaignTotalShowCounterImpl (s : CacheState) (now : Nat) (cid : Int)
    (timeout : Option Nat) (maxAllowed : Int) : Option CacheState :=
  let res := sincr (globalCounters0 s now cid) (campaignTotalShowCountKey cid)
    1 (getDaysSeconds timeout) now
  if maxAllowed ≤ res.1 then
    match skeyTtl res.2 (campaignTotalShowCountKey cid) now with
    | some rem =>
        some (setExcludeCampaigns { s with counters := res.2 } cid
          (.fin (rem + now)))
    | none => none
  else
    some { s with counters := res.2 }

/-- `_set_user_campaign_show_counter`: atomically increment with TTL
`hours * 3600`; when the new count reaches the cap, exclude the campaign for
this user until `now` plus the remaining TTL of the counter key. -/
def setUserCampaignShowCounterImpl (s : CacheState) (now : Nat) (uid : String)
    (cid : Int) (timeout : Option Nat) (maxAllowed : Int) : Option CacheState :=
  let res := sincr s.counters (userCampaignShowCountKey uid cid) 1
    (getHoursSeconds timeout) now
  if maxAllowed ≤ res.1 then
    match skeyTtl res.2 (userCampaignShowCountKey uid cid) now with
    | some rem =>
        some (setUserExcludeCampaigns { s with counters := res.2 } uid cid
          (.fin (rem + now)))
    | none => none
  else
    some { s with counters := res.2 }

/-- `_set_user_level_1_show_counter`: atomically increment with TTL
`hours * 3600`; when the new count reaches the cap, set the level-1 no-ads
flag for the same number of hours. -/
def setUserLevel1ShowCounterImpl (s : CacheState) (now : Nat) (uid : String)
    (l1 : Int) (timeout : Option Nat) (maxAllowed : Int) : CacheState :=
  let res := sincr s.counters (userLevel1ShowCountKey uid l1) 1
    (getHoursSeconds timeout) now
  if maxAllowed ≤ res.1 then
    setUserLevel1NoAds { s with counters := res.2 } now uid l1 timeout
  else
    { s with counters := res.2 }

/-- `_set_user_level_2_watch_time_counter`: skip entirely when the level-2
no-ads flag is already set; otherwise add the watch time to the counter with
TTL `hours * 3600` and, when the accumulated value reaches the `seconds`
field of the duration-valued cap, set the level-2 no-ads flag for the same
number of hours. -/
def setUserLevel2WatchTimeCounterImpl (s : CacheState) (now : Nat)
    (uid : String) (l2 : Int) (watchTime : Int) (timeout : Option Nat)
    (maxAllowed : Duration) : CacheState :=
  if (getUserLevel2NoAdsImpl s now uid l2).isSome then s
  else
    let res := sincr s.counters (userLevel2WatchTimeKey uid l2) watchTime
      (getHoursSeconds timeout) now
    if (maxAllowed.seconds : Int) ≤ res.1 then
      setUserLevel2NoAds { s with counters := res.2 } now uid l2 timeout
    else
      { s with counters := res.2 }

-- -------------------------- reachable functions --------------------------

/-- `get_exclude_campaigns_list`. -/
def getExcludeCampaignsList (s : CacheState) (now : Nat) :
    List Int × CacheState :=
  getExcludeCampaignsListImpl s now

/-- `get_user_exclude_campaigns_list`: the empty tuple for an absent user. -/
def getUserExcludeCampaignsList (s : CacheState) (now : Nat)
    (uid : Option String) : List Int × CacheState :=
  match uid with
  | some u => getUserExcludeCampaignsListImpl s now u
  | none => ([], s)

/-- `get_user_and_campaign_exclude_list`: for a present user, the global
list concatenated with the user list (the global read runs first, so the
user read sees its evictions); the empty tuple for an absent user. -/
def getUserAndCampaignExcludeList (s : CacheState) (now : Nat)
    (uid : Option String) : List Int × CacheState :=
  match uid with
  | some u =>
      let (g, s1) := getExcludeCampaignsListImpl s now
      let (usr, s2) := getUserExcludeCampaignsListImpl s1 now u
      (g ++ usr, s2)
  | none => ([], s)

/-- `get_user_level_1_no_ads`: absent for an absent user. -/
def getUserLevel1NoAds (s : CacheState) (now : Nat) (uid : Option String)
    (l1 : Int) : Option Int :=
  match uid with
  | some u => getUserLevel1NoAdsImpl s now u l1
  | none => none

/-- `get_user_level_2_no_ads`: absent for an absent user. -/
def getUserLevel2NoAds (s : CacheState) (now : Nat) (uid : Option String)
    (l2 : Int) : Option Int :=
  match uid with
  | some u => getUserLevel2NoAdsImpl s now u l2
  | none => none

/-- `set_campaign_total_show_counter`: the only writer with no user scope. -/
def setCampaignTotalShowCounter (s : CacheState) (now : Nat) (cid : Int)
    (timeout : Option Nat) (maxAllowed : Int) : Option CacheState :=
  setCampaignTotalShowCounterImpl s now cid timeout maxAllowed

/-- `set_user_campaign_show_counter`: a no-op for an absent user. -/
def setUserCampaignShowCounter (s : CacheState) (now : Nat)
    (uid : Option String) (cid : Int) (timeout : Option Nat)
    (maxAllowed : Int) : Option CacheState :=
  match uid with
  | some u => setUserCampaignShowCounterImpl s now u cid timeout maxAllowed
  | none => some s

/-- `set_user_level_1_show_counter`: a no-op for an absent user. -/
def setUserLevel1ShowCounter (s : CacheState) (now : Nat)
    (uid : Option String) (l1 : Int) (timeout : Option Nat)
    (maxAllowed : Int) : CacheState :=
  match uid with
  | some u => setUserLevel1ShowCounterImpl s now u l1 timeout maxAllowed
  | none => s

/-- `set_user_level_2_watch_time_counter`: a no-op for an absent user. -/
def setUserLevel2WatchTimeCounter (s : CacheState) (now : Nat)
    (uid : Option String) (l2 : Int) (watchTime : Int) (timeout : Option Nat)
    (maxAllowed : Duration) : CacheState :=
  match uid with
  | some u =>
      setUserLevel2WatchTimeCounterImpl s now u l2 watchTime timeout maxAllowed
  | none => s

/-- `get_campaign_counter_timestamp`: read-only accessor for the auxiliary
insertion timestamp. -/
def getCampaignCounterTimestamp (s : CacheState) (now : Nat) (cid : Int) :
    Option Int :=
  sget s.counters (campaignTotalShowCountTimestampKey cid) now

-- ------------------------- derived count observables ---------------------

/-- The count produced by the increment of one `recordGlobalShow` write,
as a function of the pre-state. -/
def globalShowCountAfter (s : CacheState) (now : Nat) (cid : Int)
    (t : Option Nat) : Int :=
  (sincr s.counters (campaignTotalShowCountKey cid) 1 (getDaysSeconds t) now).1

/-- The count produced by the increment of one `recordUserShow` write. -/
def userShowCountAfter (s : CacheState) (now : Nat) (u : String) (cid : Int)
    (t : Option Nat) : Int :=
  (sincr s.counters (userCampaignShowCountKey u cid) 1 (getHoursSeconds t)
    now).1

/-- The count produced by the increment of one `recordUserLevel1Show`
write. -/
def level1ShowCountAfter (s : CacheState) (now : Nat) (u : String) (l1 : Int)
    (t : Option Nat) : Int :=
  (sincr s.counters (userLevel1ShowCountKey u l1) 1 (getHoursSeconds t) now).1

/-- The accumulated watch time produced by the increment of one
`recordUserLevel2WatchTime` write (guard permitting). -/
def level2WatchTimeAfter (s : CacheState) (now : Nat) (u : String) (l2 : Int)
    (w : Int) (t : Option Nat) : Int :=
  (sincr s.counters (userLevel2WatchTimeKey u l2) w (getHoursSeconds t) now).1

-- ------------------------------ helper lemmas ------------------------------

lemma slookup_supdate_self (st : ScalarStore) (k : String) (v : Int × Option Nat) :
    slookup (supdate st k v) k = some v := by
  induction st with
  | nil => simp [supdate, slookup]
  | cons hd tl ih =>
      obtain ⟨a, w⟩ := hd
      by_cases h : a = k
      · simp [supdate, slookup, h]
      · simp [supdate, slookup, h, ih]

lemma slookup_supdate_ne (st : ScalarStore) (k k2 : String) (v : Int × Option Nat)
    (h : k2 ≠ k) : slookup (supdate st k v) k2 = slookup st k2 := by
  induction st with
  | nil => simp [supdate, slookup, Ne.symm h]
  | cons hd tl ih =>
      obtain ⟨a, w⟩ := hd
      by_cases h2 : a = k
      · subst h2
        simp [supdate, slookup, Ne.symm h]
      · simp [supdate, slookup, h2, ih]

lemma zlookup_zstoreUpdate_self (st : ZStore) (n : String) (zs : ZSet) :
    zlookup (zstoreUpdate st n zs) n = zs := by
  induction st with
  | nil => simp [zstoreUpdate, zlookup]
  | cons hd tl ih =>
      obtain ⟨a, w⟩ := hd
      by_cases h : a = n
      · simp [zstoreUpdate, zlookup, h]
      · simp [zstoreUpdate, zlookup, h, ih]

lemma zlookup_zstoreUpdate_ne (st : ZStore) (n n2 : String) (zs : ZSet)
    (h : n2 ≠ n) : zlookup (zstoreUpdate st n zs) n2 = zlookup st n2 := by
  induction st with
  | nil => simp [zstoreUpdate, zlookup, Ne.symm h]
  | cons hd tl ih =>
      obtain ⟨a, w⟩ := hd
      by_cases h2 : a = n
      · subst h2
        simp [zstoreUpdate, zlookup, Ne.symm h]
      · simp [zstoreUpdate, zlookup, h2, ih]

lemma zlookup_zadd_ne (st : ZStore) (n n2 : String) (m : Int) (sc : Score)
    (h : n2 ≠ n) : zlookup (zadd st n m sc) n2 = zlookup st n2 :=
  zlookup_zstoreUpdate_ne _ _ _ _ h

lemma zscore_zsetUpdate_self (zs : ZSet) (m : Int) (sc : Score) :
    zscore (zsetUpdate zs m sc) m = some sc := by
  induction zs with
  | nil => simp [zsetUpdate, zscore]
  | cons hd tl ih =>
      obtain ⟨a, w⟩ := hd
      by_cases h : a = m
      · simp [zsetUpdate, zscore, h]
      · simp [zsetUpdate, zscore, h, ih]

lemma userExcludedCampaignsKey_inj {u v : String}
    (h : userExcludedCampaignsKey u = userExcludedCampaignsKey v) : u = v := by
  have h2 := congrArg String.data h
  simp only [userExcludedCampaignsKey, String.data_append] at h2
  exact String.ext (List.append_cancel_left (List.append_cancel_right h2))

lemma userExcludedCampaignsKey_ne_global (v : String) :
    userExcludedCampaignsKey v ≠ excludeCampaignsKey := by
  intro h
  have h2 := congrArg String.data h
  simp [userExcludedCampaignsKey, excludeCampaignsKey, String.data_append] at h2

lemma campaignKey_ne_tsKey (cid : Int) :
    campaignTotalShowCountKey cid ≠ campaignTotalShowCountTimestampKey cid := by
  intro h
  have h2 := congrArg String.data h
  simp only [campaignTotalShowCountKey, campaignTotalShowCountTimestampKey,
    String.data_append] at h2
  have h3 := List.append_cancel_left h2
  simp at h3

lemma tsKey_ne_campaignKey (cid : Int) :
    campaignTotalShowCountTimestampKey cid ≠ campaignTotalShowCountKey cid :=
  fun h => campaignKey_ne_tsKey cid h.symm


-- ------------------------------- claims ---------------------------------

lemma Score.le_inf (a : Score) : a.le .inf = true := by cases a <;> rfl

lemma inScoreRange_fin_inf (now : Nat) :
    inScoreRange (.fin now) .inf = fun p => Score.le (.fin now) p.2 := by
  funext p
  simp [inScoreRange, Score.le_inf]

/-- C1 counterexample: with the global exclusion list holding campaign 10
(score in the future), the combined read for an absent userId returns the
empty sequence, although the global read alone returns 10 — the anonymous
caller does not receive the currently-excluded global campaign ids. -/
theorem anonymous_misses_global_exclusions :
    (getUserAndCampaignExcludeList
      ⟨[], [(excludeCampaignsKey, [(10, .fin 100)])], []⟩ 50 none).1 = [] ∧
    (getExcludeCampaignsList
      ⟨[], [(excludeCampaignsKey, [(10, .fin 100)])], []⟩ 50).1 = [10] := by
  decide

/-- C1 (amended): for a present userId, `get_user_and_campaign_exclude_list`
returns the union (concatenation, duplicates allowed) of the global and the
user-specific exclusion reads; for an absent userId it returns the empty
sequence and leaves the cache untouched, so an anonymous caller receives no
exclusions at all, global ones included. -/
theorem combined_exclusions_union (s : CacheState) (now : Nat) (u : String)
    (x : Int) :
    (x ∈ (getUserAndCampaignExcludeList s now (some u)).1 ↔
      x ∈ (getExcludeCampaignsList s now).1 ∨
        x ∈ (getUserExcludeCampaignsList s now (some u)).1) ∧
    getUserAndCampaignExcludeList s now none = ([], s) := by
  constructor
  · have hz := zlookup_zstoreUpdate_ne s.excludeLists excludeCampaignsKey
      (userExcludedCampaignsKey u)
      ((zlookup s.excludeLists excludeCampaignsKey).filter
        (inScoreRange (.fin now) .inf))
      (userExcludedCampaignsKey_ne_global u)
    simp [getUserAndCampaignExcludeList, getExcludeCampaignsList,
      getUserExcludeCampaignsList, getExcludeCampaignsListImpl,
      getUserExcludeCampaignsListImpl, zget, hz, List.mem_append]
  · rfl

/-- C8: each exclusion-list read returns exactly the members whose score is
at least the current timestamp (never one whose score is in the past) and,
as a side effect, the sorted set afterwards contains exactly those members —
every member with a score below `now` has been deleted. -/
theorem exclusion_read_lazy_eviction (s : CacheState) (now : Nat) (u : String) :
    (getExcludeCampaignsList s now).1 =
      ((zlookup s.excludeLists excludeCampaignsKey).filter
        (fun p => Score.le (.fin now) p.2)).map Prod.fst ∧
    zlookup (getExcludeCampaignsList s now).2.excludeLists excludeCampaignsKey =
      (zlookup s.excludeLists excludeCampaignsKey).filter
        (fun p => Score.le (.fin now) p.2) ∧
    (getUserExcludeCampaignsList s now (some u)).1 =
      ((zlookup s.excludeLists (userExcludedCampaignsKey u)).filter
        (fun p => Score.le (.fin now) p.2)).map Prod.fst ∧
    zlookup (getUserExcludeCampaignsList s now (some u)).2.excludeLists
        (userExcludedCampaignsKey u) =
      (zlookup s.excludeLists (userExcludedCampaignsKey u)).filter
        (fun p => Score.le (.fin now) p.2) := by
  refine ⟨?_, ?_, ?_, ?_⟩ <;>
    simp [getExcludeCampaignsList, getUserExcludeCampaignsList,
      getExcludeCampaignsListImpl, getUserExcludeCampaignsListImpl, zget,
      inScoreRange_fin_inf, zlookup_zstoreUpdate_self]

/-- C6: when the level-2 no-ads flag of a user/category pair is currently
set, `set_user_level_2_watch_time_counter` for that pair returns the state
unchanged — no counter increment, no TTL change and no flag write. -/
theorem level2_flag_guard_skips (s : CacheState) (now : Nat) (u : String)
    (l2 : Int) (w : Int) (t : Option Nat) (d : Duration)
    (h : (getUserLevel2NoAds s now (some u) l2).isSome) :
    setUserLevel2WatchTimeCounter s now (some u) l2 w t d = s := by
  simp only [getUserLevel2NoAds] at h
  simp [setUserLevel2WatchTimeCounter, setUserLevel2WatchTimeCounterImpl, h]

/-- C6 witness: a concrete state with the flag set is returned unchanged. -/
theorem level2_flag_guard_skips_witness :
    setUserLevel2WatchTimeCounter
      ⟨[], [], [("user_u_level_2_7_no_ads", 1, none)]⟩ 5 (some "u") 7 30
      (some 2) ⟨0, 3600⟩ =
    ⟨[], [], [("user_u_level_2_7_no_ads", 1, none)]⟩ :=
  level2_flag_guard_skips _ _ _ _ _ _ _ (by decide)

/-- C4 exhibit: with the cap supplied as a one-day duration (whose `seconds`
field is 0) and a watch time of 10 seconds, the code sets the level-2
no-ads flag although the accumulated watch time is far below the duration
in seconds (86400) — the comparison uses the `seconds` field of the
duration, not a plain number of seconds. -/
theorem level2_threshold_uses_seconds_field :
    (getUserLevel2NoAds
      (setUserLevel2WatchTimeCounter CacheState.empty 0 (some "u") 7 10
        (some 1) ⟨1, 0⟩) 0 (some "u") 7).isSome ∧
    (10 : Int) < ((Duration.mk 1 0).totalSeconds : Int) := by
  decide


lemma sget_supdate_ne (st : ScalarStore) (k k2 : String) (v : Int × Option Nat)
    (now : Nat) (h : k2 ≠ k) : sget (supdate st k v) k2 now = sget st k2 now := by
  unfold sget
  rw [slookup_supdate_ne _ _ _ _ h]

lemma sincr_of_sget_none (st : ScalarStore) (key : String) (amount : Int)
    (ttl : Option Nat) (now : Nat) (h : sget st key now = none) :
    sincr st key amount ttl now =
      (amount, supdate st key (amount, ttl.map (now + ·))) := by
  unfold sget at h
  unfold sincr
  cases hl : slookup st key with
  | none => simp
  | some p =>
      obtain ⟨v, e⟩ := p
      rw [hl] at h
      by_cases hli : liveAt now e
      · simp [hli] at h
      · simp [hli]

/-- The incremented key is stored behind an entry written by `supdate`. -/
lemma sincr_snd_supdate (st : ScalarStore) (key : String) (amount : Int)
    (ttl : Option Nat) (now : Nat) :
    ∃ e, (sincr st key amount ttl now).2 =
      supdate st key ((sincr st key amount ttl now).1, e) := by
  unfold sincr
  cases hl : slookup st key with
  | none => exact ⟨ttl.map (now + ·), rfl⟩
  | some p =>
      obtain ⟨v, e⟩ := p
      by_cases hli : liveAt now e
      · exact ⟨e, by simp [hli]⟩
      · exact ⟨ttl.map (now + ·), by simp [hli]⟩

/-- Reading the incremented key back: absent (the attached TTL already
lapsed) or exactly the new count. -/
lemma sget_sincr_self (st : ScalarStore) (key : String) (amount : Int)
    (ttl : Option Nat) (now : Nat) :
    sget (sincr st key amount ttl now).2 key now = none ∨
    sget (sincr st key amount ttl now).2 key now =
      some (sincr st key amount ttl now).1 := by
  obtain ⟨e, he⟩ := sincr_snd_supdate st key amount ttl now
  rw [he]
  unfold sget
  rw [slookup_supdate_self]
  by_cases hli : liveAt now e
  · right; simp [hli]
  · left; simp [hli]

/-- The new count depends only on the previous entry of the same key. -/
lemma sincr_fst_congr (st st2 : ScalarStore) (key : String) (amount : Int)
    (ttl : Option Nat) (now : Nat) (h : slookup st key = slookup st2 key) :
    (sincr st key amount ttl now).1 = (sincr st2 key amount ttl now).1 := by
  unfold sincr
  rw [h]
  cases hl : slookup st2 key with
  | none => simp
  | some p =>
      obtain ⟨v, e⟩ := p
      by_cases hli : liveAt now e <;> simp [hli]

lemma slookup_globalCounters0 (s : CacheState) (now : Nat) (cid : Int) :
    slookup (globalCounters0 s now cid) (campaignTotalShowCountKey cid) =
      slookup s.counters (campaignTotalShowCountKey cid) := by
  unfold globalCounters0
  split
  · exact slookup_supdate_ne _ _ _ _ (campaignKey_ne_tsKey cid)
  · rfl

/-- Whatever branch `_set_campaign_total_show_counter` takes, the counters
namespace of a successful result is the incremented store. -/
lemma global_op_counters (s : CacheState) (now : Nat) (cid : Int)
    (t : Option Nat) (m : Int) (s2 : CacheState)
    (hop : setCampaignTotalShowCounter s now cid t m = some s2) :
    s2.counters = (sincr (globalCounters0 s now cid)
      (campaignTotalShowCountKey cid) 1 (getDaysSeconds t) now).2 := by
  simp only [setCampaignTotalShowCounter, setCampaignTotalShowCounterImpl]
    at hop
  split at hop
  · split at hop
    · cases hop
      rfl
    · cases hop
  · cases hop
    rfl

lemma global_op_excludes (s : CacheState) (now : Nat) (cid : Int)
    (t : Option Nat) (m : Int) (s2 : CacheState)
    (hop : setCampaignTotalShowCounter s now cid t m = some s2) :
    (¬ m ≤ (sincr (globalCounters0 s now cid) (campaignTotalShowCountKey cid)
        1 (getDaysSeconds t) now).1 ∧ s2.excludeLists = s.excludeLists) ∨
    (m ≤ (sincr (globalCounters0 s now cid) (campaignTotalShowCountKey cid)
        1 (getDaysSeconds t) now).1 ∧
      ∃ rem, skeyTtl (sincr (globalCounters0 s now cid)
          (campaignTotalShowCountKey cid) 1 (getDaysSeconds t) now).2
          (campaignTotalShowCountKey cid) now = some rem ∧
        s2.excludeLists = zadd s.excludeLists excludeCampaignsKey cid
          (.fin (rem + now))) := by
  simp only [setCampaignTotalShowCounter, setCampaignTotalShowCounterImpl]
    at hop
  split at hop
  · rename_i hle
    split at hop
    · rename_i rem hrem
      cases hop
      exact Or.inr ⟨hle, rem, hrem, rfl⟩
    · cases hop
  · rename_i hle
    cases hop
    exact Or.inl ⟨hle, rfl⟩

lemma user_op_counters (s : CacheState) (now : Nat) (u : String) (cid : Int)
    (t : Option Nat) (m : Int) (s2 : CacheState)
    (hop : setUserCampaignShowCounter s now (some u) cid t m = some s2) :
    s2.counters = (sincr s.counters (userCampaignShowCountKey u cid) 1
      (getHoursSeconds t) now).2 := by
  simp only [setUserCampaignShowCounter, setUserCampaignShowCounterImpl] at hop
  split at hop
  · split at hop
    · cases hop
      rfl
    · cases hop
  · cases hop
    rfl

lemma user_op_excludes (s : CacheState) (now : Nat) (u : String) (cid : Int)
    (t : Option Nat) (m : Int) (s2 : CacheState)
    (hop : setUserCampaignShowCounter s now (some u) cid t m = some s2) :
    (¬ m ≤ (sincr s.counters (userCampaignShowCountKey u cid) 1
        (getHoursSeconds t) now).1 ∧ s2.excludeLists = s.excludeLists) ∨
    (m ≤ (sincr s.counters (userCampaignShowCountKey u cid) 1
        (getHoursSeconds t) now).1 ∧
      ∃ rem, skeyTtl (sincr s.counters (userCampaignShowCountKey u cid) 1
          (getHoursSeconds t) now).2 (userCampaignShowCountKey u cid) now =
          some rem ∧
        s2.excludeLists = zadd s.excludeLists (userExcludedCampaignsKey u) cid
          (.fin (rem + now))) := by
  simp only [setUserCampaignShowCounter, setUserCampaignShowCounterImpl] at hop
  split at hop
  · rename_i hle
    split at hop
    · rename_i rem hrem
      cases hop
      exact Or.inr ⟨hle, rem, hrem, rfl⟩
    · cases hop
  · rename_i hle
    cases hop
    exact Or.inl ⟨hle, rfl⟩

lemma zlookup_zadd_self (st : ZStore) (n : String) (m : Int) (sc : Score) :
    zlookup (zadd st n m sc) n = zsetUpdate (zlookup st n) m sc :=
  zlookup_zstoreUpdate_self _ _ _

lemma skeyTtl_supdate_self (st : ScalarStore) (key : String) (v : Int)
    (tExp now : Nat) :
    skeyTtl (supdate st key (v, some tExp)) key now =
      if now < tExp then some (tExp - now) else none := by
  unfold skeyTtl
  rw [slookup_supdate_self]

/-- C3: on overflow of the global and the user-campaign counter, the expiry
score written to the exclusion set equals the current timestamp plus the
remaining TTL of the counter key at that moment. -/
theorem overflow_expiry_window_alignment :
    (∀ (s : CacheState) (now : Nat) (cid : Int) (t : Option Nat) (m : Int)
      (s2 : CacheState) (rem : Nat) (c : Int),
      setCampaignTotalShowCounter s now cid t m = some s2 →
      skeyTtl s2.counters (campaignTotalShowCountKey cid) now = some rem →
      sget s2.counters (campaignTotalShowCountKey cid) now = some c →
      m ≤ c →
      zscore (zlookup s2.excludeLists excludeCampaignsKey) cid =
        some (.fin (now + rem))) ∧
    (∀ (s : CacheState) (now : Nat) (u : String) (cid : Int) (t : Option Nat)
      (m : Int) (s2 : CacheState) (rem : Nat) (c : Int),
      setUserCampaignShowCounter s now (some u) cid t m = some s2 →
      skeyTtl s2.counters (userCampaignShowCountKey u cid) now = some rem →
      sget s2.counters (userCampaignShowCountKey u cid) now = some c →
      m ≤ c →
      zscore (zlookup s2.excludeLists (userExcludedCampaignsKey u)) cid =
        some (.fin (now + rem))) := by
  constructor
  · intro s now cid t m s2 rem c hop hrem hc hm
    have hcnt := global_op_counters s now cid t m s2 hop
    rcases global_op_excludes s now cid t m s2 hop with
      ⟨hlt, _⟩ | ⟨_, rem0, hrem0, hex⟩
    · exfalso
      rw [hcnt] at hc
      rcases sget_sincr_self (globalCounters0 s now cid)
          (campaignTotalShowCountKey cid) 1 (getDaysSeconds t) now with h | h
      · rw [h] at hc
        cases hc
      · rw [h] at hc
        cases hc
        exact hlt hm
    · rw [hcnt] at hrem
      rw [hrem0] at hrem
      cases hrem
      rw [hex, zlookup_zadd_self, zscore_zsetUpdate_self, Nat.add_comm]
  · intro s now u cid t m s2 rem c hop hrem hc hm
    have hcnt := user_op_counters s now u cid t m s2 hop
    rcases user_op_excludes s now u cid t m s2 hop with
      ⟨hlt, _⟩ | ⟨_, rem0, hrem0, hex⟩
    · exfalso
      rw [hcnt] at hc
      rcases sget_sincr_self s.counters (userCampaignShowCountKey u cid) 1
          (getHoursSeconds t) now with h | h
      · rw [h] at hc
        cases hc
      · rw [h] at hc
        cases hc
        exact hlt hm
    · rw [hcnt] at hrem
      rw [hrem0] at hrem
      cases hrem
      rw [hex, zlookup_zadd_self, zscore_zsetUpdate_self, Nat.add_comm]

/-- C3 witness: a concrete overflow at `now = 1000` with a one-day (global)
and a one-hour (user) window. -/
theorem overflow_expiry_window_alignment_witness :
    zscore (zlookup (CacheState.mk
      [("campaign_1_total_show_count_timestamp", 1000, none),
       ("campaign_1_total_show_count", 1, some 87400)]
      [("excluded_campaigns", [(1, .fin 87400)])] []).excludeLists
      excludeCampaignsKey) 1 = some (.fin (1000 + 86400)) ∧
    zscore (zlookup (CacheState.mk
      [("user_u_campaign_2_show_count", 1, some 4600)]
      [("user_u_excluded_campaigns", [(2, .fin 4600)])] []).excludeLists
      (userExcludedCampaignsKey "u")) 2 = some (.fin (1000 + 3600)) :=
  ⟨overflow_expiry_window_alignment.1 CacheState.empty 1000 1 (some 1) 1 _
    86400 1 (by decide) (by decide) (by decide) (by decide),
   overflow_expiry_window_alignment.2 CacheState.empty 1000 "u" 2 (some 1) 1 _
    3600 1 (by decide) (by decide) (by decide) (by decide)⟩

/-- C5 (amended): the insertion timestamp is rewritten exactly when the
current count is absent — on the first-ever write and again on the first
write after the counter key expires; while the counter key is live it is
left untouched. -/
theorem insertion_timestamp_once_per_window (s : CacheState) (now : Nat)
    (cid : Int) (t : Option Nat) (m : Int) (s2 : CacheState)
    (hop : setCampaignTotalShowCounter s now cid t m = some s2) :
    (sget s.counters (campaignTotalShowCountKey cid) now ≠ none →
      slookup s2.counters (campaignTotalShowCountTimestampKey cid) =
        slookup s.counters (campaignTotalShowCountTimestampKey cid)) ∧
    (sget s.counters (campaignTotalShowCountKey cid) now = none →
      sget s2.counters (campaignTotalShowCountTimestampKey cid) now =
        some (now : Int)) := by
  have hcnt := global_op_counters s now cid t m s2 hop
  obtain ⟨e, he⟩ := sincr_snd_supdate (globalCounters0 s now cid)
    (campaignTotalShowCountKey cid) 1 (getDaysSeconds t) now
  constructor
  · intro hne
    rw [hcnt, he, slookup_supdate_ne _ _ _ _ (tsKey_ne_campaignKey cid)]
    unfold globalCounters0
    rw [if_neg hne]
  · intro hnone
    rw [hcnt, he, sget_supdate_ne _ _ _ _ _ (tsKey_ne_campaignKey cid)]
    unfold globalCounters0
    rw [if_pos hnone]
    unfold sset sget
    rw [slookup_supdate_self]
    rfl

/-- C5 witness: a first write at `now = 5` stores timestamp 5. -/
theorem insertion_timestamp_once_per_window_witness :
    sget (CacheState.mk
      [("campaign_1_total_show_count_timestamp", 5, none),
       ("campaign_1_total_show_count", 1, some 86405)] [] []).counters
      (campaignTotalShowCountTimestampKey 1) 5 = some 5 :=
  (insertion_timestamp_once_per_window CacheState.empty 5 1 (some 1) 100 _
    (by decide)).2 (by decide)

/-- C5 counterexample: after the one-day counter TTL lapses, a later
`recordGlobalShow` call finds the count absent and rewrites the insertion
timestamp from 0 to 86401. -/
theorem insertion_timestamp_rewritten_after_expiry :
    setCampaignTotalShowCounter CacheState.empty 0 1 (some 1) 100 =
      some ⟨[("campaign_1_total_show_count_timestamp", 0, none),
             ("campaign_1_total_show_count", 1, some 86400)], [], []⟩ ∧
    getCampaignCounterTimestamp
      ⟨[("campaign_1_total_show_count_timestamp", 0, none),
        ("campaign_1_total_show_count", 1, some 86400)], [], []⟩ 0 1 =
      some 0 ∧
    (setCampaignTotalShowCounter
      ⟨[("campaign_1_total_show_count_timestamp", 0, none),
        ("campaign_1_total_show_count", 1, some 86400)], [], []⟩ 86401 1
      (some 1) 100).map (fun s => getCampaignCounterTimestamp s 86401 1) =
      some (some 86401) := by
  decide

/-- C9 (amended): when the counter key is absent before the call and the
window argument is a positive number of days/hours, the increment attaches a
finite future TTL, the TTL query returns a number and the overflow branch
cannot hit the no-expiry sentinel. -/
theorem ttl_addition_welldefined :
    (∀ (s : CacheState) (now : Nat) (cid : Int) (t : Nat) (m : Int), 0 < t →
      sget s.counters (campaignTotalShowCountKey cid) now = none →
      (setCampaignTotalShowCounter s now cid (some t) m).isSome) ∧
    (∀ (s : CacheState) (now : Nat) (u : String) (cid : Int) (t : Nat)
      (m : Int), 0 < t →
      sget s.counters (userCampaignShowCountKey u cid) now = none →
      (setUserCampaignShowCounter s now (some u) cid (some t) m).isSome) := by
  constructor
  · intro s now cid t m ht h
    have hc0 : sget (globalCounters0 s now cid)
        (campaignTotalShowCountKey cid) now = none := by
      unfold globalCounters0
      rw [if_pos h]
      unfold sset
      rw [sget_supdate_ne _ _ _ _ _ (campaignKey_ne_tsKey cid)]
      exact h
    simp only [setCampaignTotalShowCounter, setCampaignTotalShowCounterImpl]
    rw [sincr_of_sget_none _ _ _ _ _ hc0]
    dsimp only [getDaysSeconds, Option.map]
    rw [skeyTtl_supdate_self]
    rw [if_pos (show now < now + t * 3600 * 24 by omega)]
    split <;> simp
  · intro s now u cid t m ht h
    simp only [setUserCampaignShowCounter, setUserCampaignShowCounterImpl]
    rw [sincr_of_sget_none _ _ _ _ _ h]
    dsimp only [getHoursSeconds, Option.map]
    rw [skeyTtl_supdate_self]
    rw [if_pos (show now < now + t * 3600 by omega)]
    split <;> simp

/-- C9 witness: fresh keys with a positive window never error. -/
theorem ttl_addition_welldefined_witness :
    (setCampaignTotalShowCounter CacheState.empty 0 1 (some 1) 100).isSome ∧
    (setUserCampaignShowCounter CacheState.empty 0 (some "u") 2 (some 1)
      100).isSome :=
  ⟨ttl_addition_welldefined.1 CacheState.empty 0 1 1 100 (by decide)
    (by decide),
   ttl_addition_welldefined.2 CacheState.empty 0 "u" 2 1 100 (by decide)
    (by decide)⟩

/-- C9 counterexample: a counter key first created with window `none` is
permanent; a later overflowing call with a non-`none` window still reaches
the no-expiry sentinel and errors. -/
theorem ttl_error_reachable_with_window :
    (setCampaignTotalShowCounter CacheState.empty 0 1 none 100).isSome ∧
    ((setCampaignTotalShowCounter CacheState.empty 0 1 none 100).bind
      (fun s => setCampaignTotalShowCounter s 10 1 (some 1) 2)) = none := by
  decide

lemma sget_sset_flag (st : ScalarStore) (key : String) (v : Int)
    (t : Option Nat) (now : Nat) (ht : ∀ h, t = some h → 0 < h) :
    sget (sset st key v (getHoursSeconds t) now) key now = some v := by
  unfold sset sget
  rw [slookup_supdate_self]
  cases t with
  | none => rfl
  | some h =>
      have hp := ht h rfl
      simp only [getHoursSeconds, Option.map, liveAt]
      have : now < now + h * 3600 := by omega
      simp [this]

/-- C2: in all four counter families the threshold is inclusive: given the
target entry is fresh, the overflow action is observable after the write iff
the new count reaches `maxAllowed` (so `maxAllowed - 1` does not trigger);
moreover, without any freshness assumption, every write whose resulting
count is at or above the threshold (re-)performs the idempotent action.
For the watch-time family the threshold compared is the `seconds` field of
the duration-valued cap, as in the source (see C4). -/
theorem threshold_inclusive :
    (∀ (s : CacheState) (now : Nat) (cid : Int) (t : Option Nat) (m : Int)
      (s2 : CacheState),
      zscore (zlookup s.excludeLists excludeCampaignsKey) cid = none →
      setCampaignTotalShowCounter s now cid t m = some s2 →
      ((zscore (zlookup s2.excludeLists excludeCampaignsKey) cid).isSome ↔
        m ≤ globalShowCountAfter s now cid t)) ∧
    (∀ (s : CacheState) (now : Nat) (u : String) (cid : Int) (t : Option Nat)
      (m : Int) (s2 : CacheState),
      zscore (zlookup s.excludeLists (userExcludedCampaignsKey u)) cid =
        none →
      setUserCampaignShowCounter s now (some u) cid t m = some s2 →
      ((zscore (zlookup s2.excludeLists (userExcludedCampaignsKey u))
          cid).isSome ↔ m ≤ userShowCountAfter s now u cid t)) ∧
    (∀ (s : CacheState) (now : Nat) (u : String) (l1 : Int) (t : Option Nat)
      (m : Int),
      getUserLevel1NoAds s now (some u) l1 = none →
      (∀ h, t = some h → 0 < h) →
      ((getUserLevel1NoAds (setUserLevel1ShowCounter s now (some u) l1 t m)
          now (some u) l1).isSome ↔
        m ≤ level1ShowCountAfter s now u l1 t)) ∧
    (∀ (s : CacheState) (now : Nat) (u : String) (l2 : Int) (w : Int)
      (t : Option Nat) (d : Duration),
      getUserLevel2NoAds s now (some u) l2 = none →
      (∀ h, t = some h → 0 < h) →
      ((getUserLevel2NoAds
          (setUserLevel2WatchTimeCounter s now (some u) l2 w t d) now
          (some u) l2).isSome ↔
        (d.seconds : Int) ≤ level2WatchTimeAfter s now u l2 w t)) ∧
    (∀ (s : CacheState) (now : Nat) (cid : Int) (t : Option Nat) (m : Int)
      (s2 : CacheState),
      setCampaignTotalShowCounter s now cid t m = some s2 →
      m ≤ globalShowCountAfter s now cid t →
      (zscore (zlookup s2.excludeLists excludeCampaignsKey) cid).isSome) ∧
    (∀ (s : CacheState) (now : Nat) (u : String) (cid : Int) (t : Option Nat)
      (m : Int) (s2 : CacheState),
      setUserCampaignShowCounter s now (some u) cid t m = some s2 →
      m ≤ userShowCountAfter s now u cid t →
      (zscore (zlookup s2.excludeLists (userExcludedCampaignsKey u))
        cid).isSome) ∧
    (∀ (s : CacheState) (now : Nat) (u : String) (l1 : Int) (t : Option Nat)
      (m : Int),
      (∀ h, t = some h → 0 < h) →
      m ≤ level1ShowCountAfter s now u l1 t →
      (getUserLevel1NoAds (setUserLevel1ShowCounter s now (some u) l1 t m)
        now (some u) l1).isSome) := by
  refine ⟨?_, ?_, ?_, ?_, ?_, ?_, ?_⟩
  · intro s now cid t m s2 hfresh hop
    have hcg : (sincr (globalCounters0 s now cid)
        (campaignTotalShowCountKey cid) 1 (getDaysSeconds t) now).1 =
        globalShowCountAfter s now cid t :=
      sincr_fst_congr _ _ _ _ _ _ (slookup_globalCounters0 s now cid)
    rcases global_op_excludes s now cid t m s2 hop with
      ⟨hlt, hex⟩ | ⟨hle, rem, _, hex⟩
    · rw [hex, ← hcg]
      simp [hfresh, hlt]
    · rw [hex, zlookup_zadd_self, zscore_zsetUpdate_self, ← hcg]
      simp [hle]
  · intro s now u cid t m s2 hfresh hop
    rcases user_op_excludes s now u cid t m s2 hop with
      ⟨hlt, hex⟩ | ⟨hle, rem, _, hex⟩
    · rw [hex]
      simp only [userShowCountAfter]
      simp [hfresh, hlt]
    · rw [hex, zlookup_zadd_self, zscore_zsetUpdate_self]
      simp only [userShowCountAfter]
      simp [hle]
  · intro s now u l1 t m hfresh ht
    simp only [getUserLevel1NoAds, getUserLevel1NoAdsImpl] at hfresh ⊢
    simp only [setUserLevel1ShowCounter, setUserLevel1ShowCounterImpl,
      level1ShowCountAfter]
    split
    · rename_i hle
      simp only [setUserLevel1NoAds]
      rw [sget_sset_flag _ _ _ _ _ ht]
      simp [hle]
    · rename_i hlt
      simp [hfresh, hlt]
  · intro s now u l2 w t d hfresh ht
    simp only [getUserLevel2NoAds, getUserLevel2NoAdsImpl] at hfresh ⊢
    simp only [setUserLevel2WatchTimeCounter,
      setUserLevel2WatchTimeCounterImpl, level2WatchTimeAfter]
    rw [if_neg (by simp [getUserLevel2NoAdsImpl, hfresh])]
    split
    · rename_i hle
      simp only [setUserLevel2NoAds]
      rw [sget_sset_flag _ _ _ _ _ ht]
      simp [hle]
    · rename_i hlt
      simp [hfresh, hlt]
  · intro s now cid t m s2 hop hm
    have hcg : (sincr (globalCounters0 s now cid)
        (campaignTotalShowCountKey cid) 1 (getDaysSeconds t) now).1 =
        globalShowCountAfter s now cid t :=
      sincr_fst_congr _ _ _ _ _ _ (slookup_globalCounters0 s now cid)
    rcases global_op_excludes s now cid t m s2 hop with
      ⟨hlt, _⟩ | ⟨_, rem, _, hex⟩
    · rw [hcg] at hlt
      exact absurd hm hlt
    · rw [hex, zlookup_zadd_self, zscore_zsetUpdate_self]
      rfl
  · intro s now u cid t m s2 hop hm
    rcases user_op_excludes s now u cid t m s2 hop with
      ⟨hlt, _⟩ | ⟨_, rem, _, hex⟩
    · exact absurd hm hlt
    · rw [hex, zlookup_zadd_self, zscore_zsetUpdate_self]
      rfl
  · intro s now u l1 t m ht hm
    simp only [level1ShowCountAfter] at hm
    simp only [getUserLevel1NoAds, getUserLevel1NoAdsImpl]
    simp only [setUserLevel1ShowCounter, setUserLevel1ShowCounterImpl]
    rw [if_pos hm]
    simp only [setUserLevel1NoAds]
    rw [sget_sset_flag _ _ _ _ _ ht]
    rfl

/-- C2 witness: at cap 1, the very first write overflows in each of the four
counter families; the inclusive comparison makes the action observable. -/
theorem threshold_inclusive_witness :
    ((zscore (zlookup (CacheState.mk
        [("campaign_1_total_show_count_timestamp", 1000, none),
         ("campaign_1_total_show_count", 1, some 87400)]
        [("excluded_campaigns", [(1, .fin 87400)])] []).excludeLists
        excludeCampaignsKey) 1).isSome ↔
      (1 : Int) ≤ globalShowCountAfter CacheState.empty 1000 1 (some 1)) ∧
    ((zscore (zlookup (CacheState.mk
        [("user_u_campaign_2_show_count", 1, some 4600)]
        [("user_u_excluded_campaigns", [(2, .fin 4600)])] []).excludeLists
        (userExcludedCampaignsKey "u")) 2).isSome ↔
      (1 : Int) ≤ userShowCountAfter CacheState.empty 1000 "u" 2 (some 1)) ∧
    ((getUserLevel1NoAds
        (setUserLevel1ShowCounter CacheState.empty 0 (some "u") 3 (some 1) 1)
        0 (some "u") 3).isSome ↔
      (1 : Int) ≤ level1ShowCountAfter CacheState.empty 0 "u" 3 (some 1)) ∧
    ((getUserLevel2NoAds
        (setUserLevel2WatchTimeCounter CacheState.empty 0 (some "u") 4 50
          (some 1) ⟨0, 40⟩) 0 (some "u") 4).isSome ↔
      (((Duration.mk 0 40).seconds : Int) ≤
        level2WatchTimeAfter CacheState.empty 0 "u" 4 50 (some 1))) ∧
    (zscore (zlookup (CacheState.mk
        [("campaign_1_total_show_count_timestamp", 1000, none),
         ("campaign_1_total_show_count", 1, some 87400)]
        [("excluded_campaigns", [(1, .fin 87400)])] []).excludeLists
        excludeCampaignsKey) 1).isSome ∧
    (zscore (zlookup (CacheState.mk
        [("user_u_campaign_2_show_count", 1, some 4600)]
        [("user_u_excluded_campaigns", [(2, .fin 4600)])] []).excludeLists
        (userExcludedCampaignsKey "u")) 2).isSome ∧
    (getUserLevel1NoAds
      (setUserLevel1ShowCounter CacheState.empty 0 (some "u") 3 (some 1) 1)
      0 (some "u") 3).isSome :=
  ⟨threshold_inclusive.1 CacheState.empty 1000 1 (some 1) 1 _ (by decide)
    (by decide),
   threshold_inclusive.2.1 CacheState.empty 1000 "u" 2 (some 1) 1 _
    (by decide) (by decide),
   threshold_inclusive.2.2.1 CacheState.empty 0 "u" 3 (some 1) 1 (by decide)
    (fun h hh => by injection hh with h1; omega),
   threshold_inclusive.2.2.2.1 CacheState.empty 0 "u" 4 50 (some 1) ⟨0, 40⟩
    (by decide) (fun h hh => by injection hh with h1; omega),
   threshold_inclusive.2.2.2.2.1 CacheState.empty 1000 1 (some 1) 1 _
    (by decide) (by decide),
   threshold_inclusive.2.2.2.2.2.1 CacheState.empty 1000 "u" 2 (some 1) 1 _
    (by decide) (by decide),
   threshold_inclusive.2.2.2.2.2.2 CacheState.empty 0 "u" 3 (some 1) 1
    (fun h hh => by injection hh with h1; omega) (by decide)⟩

lemma globalRead_fst_congr (s s2 : CacheState) (now2 : Nat)
    (h : zlookup s2.excludeLists excludeCampaignsKey =
      zlookup s.excludeLists excludeCampaignsKey) :
    (getExcludeCampaignsList s2 now2).1 = (getExcludeCampaignsList s now2).1 := by
  simp [getExcludeCampaignsList, getExcludeCampaignsListImpl, zget, h]

lemma userRead_fst_congr (s s2 : CacheState) (now2 : Nat) (v : String)
    (h : zlookup s2.excludeLists (userExcludedCampaignsKey v) =
      zlookup s.excludeLists (userExcludedCampaignsKey v)) :
    (getUserExcludeCampaignsList s2 now2 (some v)).1 =
      (getUserExcludeCampaignsList s now2 (some v)).1 := by
  simp [getUserExcludeCampaignsList, getUserExcludeCampaignsListImpl, zget, h]

/-- C10: the global and per-user exclusion sets are disjoint storage — an
overflowing user write touches only the calling user exclusion set, leaving
the global set and every other user set (and the reads over them)
unchanged; an overflowing global write leaves every per-user set
unchanged. -/
theorem exclusion_sets_disjoint :
    (∀ (s : CacheState) (now : Nat) (u : String) (cid : Int) (t : Option Nat)
      (m : Int) (s2 : CacheState) (v : String) (now2 : Nat),
      setUserCampaignShowCounter s now (some u) cid t m = some s2 → v ≠ u →
      zlookup s2.excludeLists excludeCampaignsKey =
        zlookup s.excludeLists excludeCampaignsKey ∧
      zlookup s2.excludeLists (userExcludedCampaignsKey v) =
        zlookup s.excludeLists (userExcludedCampaignsKey v) ∧
      (getExcludeCampaignsList s2 now2).1 =
        (getExcludeCampaignsList s now2).1 ∧
      (getUserExcludeCampaignsList s2 now2 (some v)).1 =
        (getUserExcludeCampaignsList s now2 (some v)).1) ∧
    (∀ (s : CacheState) (now : Nat) (cid : Int) (t : Option Nat) (m : Int)
      (s2 : CacheState) (w : String) (now2 : Nat),
      setCampaignTotalShowCounter s now cid t m = some s2 →
      zlookup s2.excludeLists (userExcludedCampaignsKey w) =
        zlookup s.excludeLists (userExcludedCampaignsKey w) ∧
      (getUserExcludeCampaignsList s2 now2 (some w)).1 =
        (getUserExcludeCampaignsList s now2 (some w)).1) := by
  constructor
  · intro s now u cid t m s2 v now2 hop hne
    have hg : zlookup s2.excludeLists excludeCampaignsKey =
        zlookup s.excludeLists excludeCampaignsKey := by
      rcases user_op_excludes s now u cid t m s2 hop with
        ⟨_, hex⟩ | ⟨_, rem, _, hex⟩
      · rw [hex]
      · rw [hex, zlookup_zadd_ne _ _ _ _ _
          (Ne.symm (userExcludedCampaignsKey_ne_global u))]
    have hv : zlookup s2.excludeLists (userExcludedCampaignsKey v) =
        zlookup s.excludeLists (userExcludedCampaignsKey v) := by
      rcases user_op_excludes s now u cid t m s2 hop with
        ⟨_, hex⟩ | ⟨_, rem, _, hex⟩
      · rw [hex]
      · rw [hex, zlookup_zadd_ne _ _ _ _ _
          (fun hh => hne (userExcludedCampaignsKey_inj hh))]
    exact ⟨hg, hv, globalRead_fst_congr s s2 now2 hg,
      userRead_fst_congr s s2 now2 v hv⟩
  · intro s now cid t m s2 w now2 hop
    have hw : zlookup s2.excludeLists (userExcludedCampaignsKey w) =
        zlookup s.excludeLists (userExcludedCampaignsKey w) := by
      rcases global_op_excludes s now cid t m s2 hop with
        ⟨_, hex⟩ | ⟨_, rem, _, hex⟩
      · rw [hex]
      · rw [hex, zlookup_zadd_ne _ _ _ _ _
          (userExcludedCampaignsKey_ne_global w)]
    exact ⟨hw, userRead_fst_congr s s2 now2 w hw⟩

/-- C10 witness: an overflowing write by user `a` leaves the global set and
the set of user `b` unchanged, and an overflowing global write leaves the
set of user `b` unchanged. -/
theorem exclusion_sets_disjoint_witness :
    (zlookup (CacheState.mk
        [("user_a_campaign_2_show_count", 1, some 4600)]
        [("user_a_excluded_campaigns", [(2, .fin 4600)])] []).excludeLists
        excludeCampaignsKey =
      zlookup CacheState.empty.excludeLists excludeCampaignsKey ∧
     zlookup (CacheState.mk
        [("user_a_campaign_2_show_count", 1, some 4600)]
        [("user_a_excluded_campaigns", [(2, .fin 4600)])] []).excludeLists
        (userExcludedCampaignsKey "b") =
      zlookup CacheState.empty.excludeLists (userExcludedCampaignsKey "b") ∧
     (getExcludeCampaignsList (CacheState.mk
        [("user_a_campaign_2_show_count", 1, some 4600)]
        [("user_a_excluded_campaigns", [(2, .fin 4600)])] []) 42).1 =
      (getExcludeCampaignsList CacheState.empty 42).1 ∧
     (getUserExcludeCampaignsList (CacheState.mk
        [("user_a_campaign_2_show_count", 1, some 4600)]
        [("user_a_excluded_campaigns", [(2, .fin 4600)])] []) 42
        (some "b")).1 =
      (getUserExcludeCampaignsList CacheState.empty 42 (some "b")).1) ∧
    (zlookup (CacheState.mk
        [("campaign_1_total_show_count_timestamp", 1000, none),
         ("campaign_1_total_show_count", 1, some 87400)]
        [("excluded_campaigns", [(1, .fin 87400)])] []).excludeLists
        (userExcludedCampaignsKey "b") =
      zlookup CacheState.empty.excludeLists (userExcludedCampaignsKey "b") ∧
     (getUserExcludeCampaignsList (CacheState.mk
        [("campaign_1_total_show_count_timestamp", 1000, none),
         ("campaign_1_total_show_count", 1, some 87400)]
        [("excluded_campaigns", [(1, .fin 87400)])] []) 42 (some "b")).1 =
      (getUserExcludeCampaignsList CacheState.empty 42 (some "b")).1) :=
  ⟨exclusion_sets_disjoint.1 CacheState.empty 1000 "a" 2 (some 1) 1 _ "b" 42
    (by decide) (by decide),
   exclusion_sets_disjoint.2 CacheState.empty 1000 1 (some 1) 1 _ "b" 42
    (by decide)⟩

/-- C7: every per-user operation called with no user identity is a no-op:
the per-user reads return an empty or absent result without touching the
store, and the per-user writes return the state unchanged; the global
campaign counter, the only non-user-scoped writer, always applies its
increment. -/
theorem absent_user_no_op :
    (∀ (s : CacheState) (now : Nat),
      getUserExcludeCampaignsList s now none = ([], s)) ∧
    (∀ (s : CacheState) (now : Nat),
      getUserAndCampaignExcludeList s now none = ([], s)) ∧
    (∀ (s : CacheState) (now : Nat) (l1 : Int),
      getUserLevel1NoAds s now none l1 = none) ∧
    (∀ (s : CacheState) (now : Nat) (l2 : Int),
      getUserLevel2NoAds s now none l2 = none) ∧
    (∀ (s : CacheState) (now : Nat) (cid : Int) (t : Option Nat) (m : Int),
      setUserCampaignShowCounter s now none cid t m = some s) ∧
    (∀ (s : CacheState) (now : Nat) (l1 : Int) (t : Option Nat) (m : Int),
      setUserLevel1ShowCounter s now none l1 t m = s) ∧
    (∀ (s : CacheState) (now : Nat) (l2 : Int) (w : Int) (t : Option Nat)
      (d : Duration),
      setUserLevel2WatchTimeCounter s now none l2 w t d = s) ∧
    (∀ (s : CacheState) (now : Nat) (cid : Int) (t : Option Nat) (m : Int)
      (s2 : CacheState),
      setCampaignTotalShowCounter s now cid t m = some s2 →
      ∃ e, slookup s2.counters (campaignTotalShowCountKey cid) =
        some (globalShowCountAfter s now cid t, e)) := by
  refine ⟨fun s now => rfl, fun s now => rfl, fun s now l1 => rfl,
    fun s now l2 => rfl, fun s now cid t m => rfl, fun s now l1 t m => rfl,
    fun s now l2 w t d => rfl, ?_⟩
  intro s now cid t m s2 hop
  have hcnt := global_op_counters s now cid t m s2 hop
  obtain ⟨e, he⟩ := sincr_snd_supdate (globalCounters0 s now cid)
    (campaignTotalShowCountKey cid) 1 (getDaysSeconds t) now
  refine ⟨e, ?_⟩
  rw [hcnt, he, slookup_supdate_self,
    sincr_fst_congr _ _ _ _ _ _ (slookup_globalCounters0 s now cid)]
  rfl

/-- C7 witness: a concrete global write lands in the counters namespace. -/
theorem absent_user_no_op_witness :
    ∃ e, slookup (CacheState.mk
      [("campaign_1_total_show_count_timestamp", 1000, none),
       ("campaign_1_total_show_count", 1, some 87400)]
      [("excluded_campaigns", [(1, .fin 87400)])] []).counters
      (campaignTotalShowCountKey 1) =
      some (globalShowCountAfter CacheState.empty 1000 1 (some 1), e) :=
  absent_user_no_op.2.2.2.2.2.2.2 CacheState.empty 1000 1 (some 1) 1 _
    (by decide)


end CampaignCache
